import Mathlib

/-!
Verification of the hyperglass CLI (src/hyperglass/cli/main.py) against its
natural-language specification.

The development embeds, as executable Lean definitions:
  - a regular-expression engine modelling Python re with re.IGNORECASE
    (codepoints as Nat; ASCII case folding; prefix-anchored re.match
    semantics via Brzozowski derivatives), together with a compiler for the
    pattern sub-language the CLI exercises (literals, classes, groups,
    alternation, quantifiers, common escapes; unsupported constructs such
    as anchors are rejected with an error, matching the fallible nature of
    re.compile);
  - the device / directive / plugin search commands;
  - the dotted-path parameter resolver (operator.attrgetter over an
    attribute tree) and the params command;
  - the start command orchestration (build gate, interrupt handler,
    exit codes).
-/

/-- ASCII lower-casing on codepoints, as used by re.IGNORECASE folding. -/
def foldLow (n : Nat) : Nat :=
  if 65 ≤ n ∧ n ≤ 90 then n + 32 else n

/-- ASCII upper-casing on codepoints. -/
def foldUp (n : Nat) : Nat :=
  if 97 ≤ n ∧ n ≤ 122 then n - 32 else n

/-- Regular expressions over Unicode codepoints (Nat). `cls` is a character
class given as inclusive codepoint ranges, possibly negated. -/
inductive Regex where
  | fail
  | eps
  | any
  | char (p : Nat)
  | cls (neg : Bool) (ranges : List (Nat × Nat))
  | alt (r s : Regex)
  | cat (r s : Regex)
  | star (r : Regex)
deriving DecidableEq, Repr

/-- Case-insensitive single-codepoint comparison (re.IGNORECASE). -/
def charMatchCI (p c : Nat) : Bool :=
  foldLow p == foldLow c

/-- Does codepoint `n` hit the range `[lo, hi]`, up to ASCII case folding?
With re.IGNORECASE a class matches a character if any case variant of the
character lies in the class. -/
def rangeHit (lo hi n : Nat) : Bool :=
  decide (lo ≤ n ∧ n ≤ hi) ||
    decide (lo ≤ foldLow n ∧ foldLow n ≤ hi) ||
    decide (lo ≤ foldUp n ∧ foldUp n ≤ hi)

/-- Membership of a codepoint in a list of ranges, case-insensitively. -/
def inRangesCI (ranges : List (Nat × Nat)) (n : Nat) : Bool :=
  ranges.any (fun lohi => rangeHit lohi.1 lohi.2 n)

/-- Character-class match, honouring negation. -/
def clsMatch (neg : Bool) (ranges : List (Nat × Nat)) (n : Nat) : Bool :=
  if neg then !(inRangesCI ranges n) else inRangesCI ranges n

/-- Does the regex accept the empty string? -/
def Regex.nullable : Regex → Bool
  | .fail => false
  | .eps => true
  | .any => false
  | .char _ => false
  | .cls _ _ => false
  | .alt r s => r.nullable || s.nullable
  | .cat r s => r.nullable && s.nullable
  | .star _ => true

/-- Brzozowski derivative with respect to one codepoint. Python `.` does
not match a newline (codepoint 10) without re.DOTALL. -/
def Regex.deriv : Regex → Nat → Regex
  | .fail, _ => .fail
  | .eps, _ => .fail
  | .any, c => if c == 10 then .fail else .eps
  | .char p, c => if charMatchCI p c then .eps else .fail
  | .cls neg rs, c => if clsMatch neg rs c then .eps else .fail
  | .alt r s, c => .alt (r.deriv c) (s.deriv c)
  | .cat r s, c =>
    if r.nullable then .alt (.cat (r.deriv c) s) (s.deriv c) else .cat (r.deriv c) s
  | .star r, c => .cat (r.deriv c) (.star r)

/-- Prefix-anchored matching: does the regex match SOME prefix of the
input?  This is the acceptance test of Python re.match (truthiness of the
returned match object): anchored at the start of the string, not a
substring search. -/
def matchList : Regex → List Char → Bool
  | r, [] => r.nullable
  | r, c :: cs => r.nullable || matchList (r.deriv c.toNat) cs

/-- String version of `matchList`, the model of `pattern.match(s)`. -/
def matchStr (r : Regex) (s : String) : Bool :=
  matchList r s.data

/-- Codepoint ranges for the \d class. -/
def digitRanges : List (Nat × Nat) := [(48, 57)]

/-- Codepoint ranges for the \w class. -/
def wordRanges : List (Nat × Nat) := [(48, 57), (65, 90), (95, 95), (97, 122)]

/-- Codepoint ranges for the \s class. -/
def spaceRanges : List (Nat × Nat) := [(9, 13), (32, 32)]

/-- Escape outside a character class. Known escapes are translated; escapes
Python rejects (for example a bad letter escape) are errors, and constructs
outside the modelled sub-language are rejected as well. -/
def parseEsc (cs : List Char) : Except String (Regex × List Char) :=
  match cs with
  | [] => .error ("bad escape (end of pattern)")
  | 'd' :: rest => .ok (.cls false digitRanges, rest)
  | 'D' :: rest => .ok (.cls true digitRanges, rest)
  | 'w' :: rest => .ok (.cls false wordRanges, rest)
  | 'W' :: rest => .ok (.cls true wordRanges, rest)
  | 's' :: rest => .ok (.cls false spaceRanges, rest)
  | 'S' :: rest => .ok (.cls true spaceRanges, rest)
  | 'n' :: rest => .ok (.char 10, rest)
  | 't' :: rest => .ok (.char 9, rest)
  | 'r' :: rest => .ok (.char 13, rest)
  | 'f' :: rest => .ok (.char 12, rest)
  | 'v' :: rest => .ok (.char 11, rest)
  | 'a' :: rest => .ok (.char 7, rest)
  | c :: rest =>
    if c.isAlpha || c.isDigit then .error ("bad escape")
    else .ok (.char c.toNat, rest)

/-- Body of a character class, after any leading ^ and literal ] have been
consumed.  A missing closing ] is the unterminated-character-set error. -/
def parseClsBody : List Char → List (Nat × Nat) → Except String (List (Nat × Nat) × List Char)
  | [], _ => .error ("unterminated character set")
  | ']' :: rest, acc => .ok (acc, rest)
  | '\\' :: c :: rest, acc =>
    if c == 'd' then parseClsBody rest (digitRanges ++ acc)
    else if c == 'w' then parseClsBody rest (wordRanges ++ acc)
    else if c == 's' then parseClsBody rest (spaceRanges ++ acc)
    else if c.isAlpha || c.isDigit then .error ("bad escape in character set")
    else parseClsBody rest ((c.toNat, c.toNat) :: acc)
  | '\\' :: [], _ => .error ("bad escape (end of pattern)")
  | a :: '-' :: ']' :: rest, acc => .ok ((45, 45) :: (a.toNat, a.toNat) :: acc, rest)
  | a :: '-' :: b :: rest, acc =>
    if b == '\\' then .error ("escaped range bounds are not modelled")
    else if a.toNat ≤ b.toNat then parseClsBody rest ((a.toNat, b.toNat) :: acc)
    else .error ("bad character range")
  | a :: rest, acc => parseClsBody rest ((a.toNat, a.toNat) :: acc)

/-- Character class, after the opening [.  A leading ^ negates; a ] in
first position is a literal. -/
def parseCls (cs : List Char) : Except String (Regex × List Char) :=
  let p1 : Bool × List Char :=
    match cs with
    | '^' :: rest => (true, rest)
    | _ => (false, cs)
  let p2 : List (Nat × Nat) × List Char :=
    match p1.2 with
    | ']' :: rest => ([(93, 93)], rest)
    | _ => ([], p1.2)
  match parseClsBody p2.2 p2.1 with
  | .ok (ranges, rest) => .ok (.cls p1.1 ranges, rest)
  | .error e => .error e

/-- After a quantifier: a second quantifier is the multiple-repeat error. -/
def noMoreRep (r : Regex) (cs : List Char) : Except String (Regex × List Char) :=
  match cs with
  | '*' :: _ => .error ("multiple repeat")
  | '+' :: _ => .error ("multiple repeat")
  | '?' :: _ => .error ("multiple repeat")
  | _ => .ok (r, cs)

/-- After a quantifier: an optional lazy marker ?, then no further
quantifier may follow. -/
def repTail (r : Regex) (cs : List Char) : Except String (Regex × List Char) :=
  match cs with
  | '?' :: rest => noMoreRep r rest
  | _ => noMoreRep r cs

mutual

/-- Alternation level of the pattern grammar. -/
def parseAlt : Nat → List Char → Except String (Regex × List Char)
  | 0, _ => .error ("pattern too deeply nested")
  | fuel + 1, cs => do
    let (r, rest) ← parseCat fuel cs
    match rest with
    | '|' :: rest2 => do
      let (r2, rest3) ← parseAlt fuel rest2
      .ok (.alt r r2, rest3)
    | _ => .ok (r, rest)

/-- Concatenation level: a sequence of quantified atoms. -/
def parseCat : Nat → List Char → Except String (Regex × List Char)
  | 0, _ => .error ("pattern too deeply nested")
  | fuel + 1, cs =>
    match cs with
    | [] => .ok (.eps, [])
    | ')' :: _ => .ok (.eps, cs)
    | '|' :: _ => .ok (.eps, cs)
    | _ => do
      let (r, rest) ← parseRep fuel cs
      let (r2, rest2) ← parseCat fuel rest
      .ok (.cat r r2, rest2)

/-- An atom followed by an optional quantifier. -/
def parseRep : Nat → List Char → Except String (Regex × List Char)
  | 0, _ => .error ("pattern too deeply nested")
  | fuel + 1, cs => do
    let (a, rest) ← parseAtom fuel cs
    match rest with
    | '*' :: rest2 => repTail (.star a) rest2
    | '+' :: rest2 => repTail (.cat a (.star a)) rest2
    | '?' :: rest2 => repTail (.alt a .eps) rest2
    | _ => .ok (a, rest)

/-- A single atom: literal, dot, group, class or escape.  Anchors are
outside the modelled sub-language and rejected. -/
def parseAtom : Nat → List Char → Except String (Regex × List Char)
  | 0, _ => .error ("pattern too deeply nested")
  | fuel + 1, cs =>
    match cs with
    | [] => .error ("unexpected end of pattern")
    | '(' :: rest => do
      let (r, rest2) ← parseAlt fuel rest
      match rest2 with
      | ')' :: rest3 => .ok (r, rest3)
      | _ => .error ("missing ), unterminated subpattern")
    | ')' :: _ => .error ("unbalanced parenthesis")
    | '*' :: _ => .error ("nothing to repeat")
    | '+' :: _ => .error ("nothing to repeat")
    | '?' :: _ => .error ("nothing to repeat")
    | '[' :: rest => parseCls rest
    | '.' :: rest => .ok (.any, rest)
    | '^' :: _ => .error ("anchors are not modelled")
    | '$' :: _ => .error ("anchors are not modelled")
    | '\\' :: rest => parseEsc rest
    | c :: rest => .ok (.char c.toNat, rest)

end

/-- Model of re.compile(search, re.IGNORECASE): either a compiled regex or
a compile error (Python re.error). -/
def compile (s : String) : Except String Regex :=
  match parseAlt (4 * (s.length + 1)) s.data with
  | .error e => .error e
  | .ok (r, []) => .ok r
  | .ok (_, _) => .error ("unbalanced parenthesis")

/-- A named entity of a searchable collection (device or directive): the
two fields the search consults. -/
structure Entity where
  id : String
  name : String
deriving DecidableEq, Repr

/-- Outcome of the devices / directives commands.  `printOne` is the
short-circuit branch (inspect panel for the first match, then
typer.Exit(0)); `printAll` is the fall-through that prints every entity
and returns (exit 0); `uncaught` is an exception escaping the command
handler (re.error from re.compile, which the source does not catch). -/
inductive SearchCmdResult where
  | printOne (e : Entity)
  | printAll (es : List Entity)
  | uncaught (e : String)
deriving DecidableEq, Repr

/-- Exit code of a devices / directives invocation.  The two print
branches exit 0; an uncaught exception terminates the process nonzero
(typer reports the traceback and exits 1). -/
def SearchCmdResult.exitCode : SearchCmdResult → Nat
  | .printOne _ => 0
  | .printAll _ => 0
  | .uncaught _ => 1

/-- The match test of the scan loop of _devices / _directives: does the
pattern match the id or the name of the entity? -/
def entityHit (r : Regex) (d : Entity) : Bool :=
  matchStr r d.id || matchStr r d.name

/-- The scan loop of _devices / _directives: first entity, in collection
order, whose id or name the pattern matches. -/
def searchFirst (r : Regex) : List Entity → Option Entity
  | [] => none
  | d :: ds => if entityHit r d then some d else searchFirst r ds

/-- Model of the _devices command body: with a search argument, compile it
case-insensitively, scan for the first entity whose id or name matches and
exit 0 on it; otherwise fall through and print the whole collection. -/
def devicesCmd (devices : List Entity) (search : Option String) : SearchCmdResult :=
  match search with
  | none => .printAll devices
  | some s =>
    match compile s with
    | .error e => .uncaught e
    | .ok r =>
      match searchFirst r devices with
      | some d => .printOne d
      | none => .printAll devices

/-- Model of the _directives command body, structurally identical to
_devices but over the directives collection. -/
def directivesCmd (directives : List Entity) (search : Option String) : SearchCmdResult :=
  match search with
  | none => .printAll directives
  | some s =>
    match compile s with
    | .error e => .uncaught e
    | .ok r =>
      match searchFirst r directives with
      | some d => .printOne d
      | none => .printAll directives

/-- A configured plugin: id and name, as exposed to the search. -/
structure Plugin where
  id : String
  name : String
deriving DecidableEq, Repr

/-- Outcome of the plugins command.  `noMatches` carries the reported
error message (the source formats it with repr quotes around the search
string; the quotes are elided here) and exits 1; `uncaught` is the
re.error escaping the handler. -/
inductive PluginsResult where
  | printAll (ps : List Plugin)
  | printMatches (ps : List Plugin)
  | noMatches (msg : String)
  | uncaught (e : String)
deriving DecidableEq, Repr

/-- Exit code of a plugins invocation. -/
def PluginsResult.exitCode : PluginsResult → Nat
  | .printAll _ => 0
  | .printMatches _ => 0
  | .noMatches _ => 1
  | .uncaught _ => 1

/-- The to_fetch selection of _plugins: input plugins only, output plugins
only, or both (input first), per the --input / --output flags. -/
def allPluginsOf (inputPlugins outputPlugins : List Plugin) (showInput showOutput : Bool) :
    List Plugin :=
  if showInput then inputPlugins
  else if showOutput then outputPlugins
  else inputPlugins ++ outputPlugins

/-- Model of the _plugins command body: fetch the selected collections,
and with a search argument compile it case-insensitively and keep the
plugins whose NAME matches (the source consults plugin.name only); zero
matches is the reported no-match error with exit 1. -/
def pluginsCmd (inputPlugins outputPlugins : List Plugin) (showInput showOutput : Bool)
    (search : Option String) : PluginsResult :=
  let allPlugins := allPluginsOf inputPlugins outputPlugins showInput showOutput
  match search with
  | none => .printAll allPlugins
  | some s =>
    match compile s with
    | .error e => .uncaught e
    | .ok r =>
      let matching := allPlugins.filter (fun p => matchStr r p.name)
      if matching.isEmpty then .noMatches ("No plugins matching " ++ s)
      else .printMatches matching

/-- A Python object as seen by getattr: a finite attribute table.  The
configuration tree (ConfigRoot) is consumed read-only through attribute
access only, so the attribute table is all the resolver can observe. -/
inductive PyObj where
  | mk (attrs : List (String × PyObj))

/-- Attribute table of an object. -/
def PyObj.attrs : PyObj → List (String × PyObj)
  | .mk a => a

/-- Model of getattr(obj, name): the attribute value, or an AttributeError
carrying the missing name. -/
def getattrE (obj : PyObj) (name : String) : Except String PyObj :=
  match obj.attrs.find? (fun p => p.1 == name) with
  | some p => .ok p.2
  | none => .error name

/-- Split a codepoint list on the dot character, as str.split does in
operator.attrgetter: the empty string yields one empty segment, and
adjacent dots yield empty segments. -/
def splitDots : List Char → List (List Char)
  | [] => [[]]
  | '.' :: rest => [] :: splitDots rest
  | c :: rest =>
    match splitDots rest with
    | s :: ss => (c :: s) :: ss
    | [] => [[c]]

/-- Dotted path as a list of string segments. -/
def pathSegs (p : String) : List String :=
  (splitDots p.data).map (fun cs => String.mk cs)

/-- The resolution loop of operator.attrgetter: resolve each segment with
getattr in turn, failing on the first missing attribute. -/
def resolveSegs : List String → PyObj → Except String PyObj
  | [], obj => .ok obj
  | seg :: rest, obj =>
    match getattrE obj seg with
    | .ok v => resolveSegs rest v
    | .error e => .error e

/-- Model of operator.attrgetter(path)(obj): split the path on dots and
resolve the segments sequentially. -/
def attrgetter (p : String) (obj : PyObj) : Except String PyObj :=
  resolveSegs (pathSegs p) obj

/-- Boolean view of resolution failure: does some segment of the path fail
to resolve? -/
def resolveFails (p : String) (obj : PyObj) : Bool :=
  match attrgetter p obj with
  | .error _ => true
  | .ok _ => false

mutual

/-- ConfigRoot invariant from the spec: every reachable attribute name is
a valid identifier; only nonemptiness of the names is needed here. -/
def validNamesB : PyObj → Bool
  | .mk attrs => validAttrs attrs

/-- Attribute-table part of `validNamesB`. -/
def validAttrs : List (String × PyObj) → Bool
  | [] => true
  | (n, v) :: rest => (!n.isEmpty) && validNamesB v && validAttrs rest

end

/-- Outcome of the params command with a path argument: print the resolved
value and exit 0, or report the miss and exit 1.  The source formats the
error as repr of "params." + path; the repr quotes are elided here. -/
inductive ParamsResult where
  | printValue (v : PyObj)
  | pathError (msg : String)

/-- Exit code of a params invocation with a path argument. -/
def ParamsResult.exitCode : ParamsResult → Nat
  | .printValue _ => 0
  | .pathError _ => 1

/-- Model of the _params command body for a supplied path: resolve it with
attrgetter against the params object; an AttributeError is reported with
the original full path and exit code 1. -/
def paramsCmd (params : PyObj) (p : String) : ParamsResult :=
  match attrgetter p params with
  | .ok v => .printValue v
  | .error _ => .pathError ("params." ++ p ++ " does not exist")

/-- What the Deadline-Bounded Build Step invocation does during a start
invocation.  Modelled from the spec: build_ui (cli/util.py, not under
src/) is an opaque blocking call bounded by the given timeout that returns
a boolean BuildOutcome, true iff the build completed successfully before
the deadline, and does not let the deadline expiry escape as an exception;
an operator interrupt during the build surfaces as a KeyboardInterrupt
carrying a message (str of the exception). -/
inductive BuildEvent where
  | returns (outcome : Bool)
  | interrupted (msg : String)
deriving DecidableEq, Repr

/-- What the service entry point does once invoked.  Modelled from the
spec: hyperglass.main.run (not under src/) is an opaque long-running call
that either returns normally, exits the process via SystemExit carrying
the service exit code (str of the exception is the message the handler
sees), or surfaces an operator interrupt as KeyboardInterrupt. -/
inductive ServiceEvent where
  | returns
  | systemExit (code : Nat) (msg : String)
  | interrupted (msg : String)
deriving DecidableEq, Repr

/-- Observable outcome of one start invocation: the timeouts passed to
build_ui, the worker counts passed to start_server, the warning messages
echoed, how many times the fixed interrupt notice was echoed, and the
process exit code. -/
structure StartResult where
  buildCalls : List Nat
  serverCalls : List (Option Nat)
  warnings : List String
  interruptNotices : Nat
  exitCode : Nat
deriving DecidableEq, Repr

/-- The except (KeyboardInterrupt, SystemExit) handler of _start: warn
with the message only when its length exceeds 1, always echo the fixed
stopping notice once, and raise typer.Exit(0). -/
def interruptHandler (buildCalls : List Nat) (serverCalls : List (Option Nat))
    (msg : String) : StartResult :=
  { buildCalls := buildCalls
    serverCalls := serverCalls
    warnings := if msg.length > 1 then [msg] else []
    interruptNotices := 1
    exitCode := 0 }

/-- Hand-off to the service entry point: start_server(workers) is called
once; what happens next is the service event.  A normal return falls out
of the try block and the command exits 0; SystemExit and KeyboardInterrupt
are both caught by the same except clause. -/
def runService (buildCalls : List Nat) (workers : Option Nat) (sev : ServiceEvent) :
    StartResult :=
  match sev with
  | .returns =>
    { buildCalls := buildCalls
      serverCalls := [workers]
      warnings := []
      interruptNotices := 0
      exitCode := 0 }
  | .systemExit _ msg => interruptHandler buildCalls [workers] msg
  | .interrupted msg => interruptHandler buildCalls [workers] msg

/-- The fixed timeout _start passes to build_ui. -/
def startBuildTimeout : Nat := 180

/-- Model of the _start command body: with --build, call build_ui with the
fixed 180 second timeout and invoke start_server only when it returned
true (a false outcome falls through and the command exits 0); without
--build, invoke start_server directly.  KeyboardInterrupt and SystemExit
anywhere in the try block reach the shared interrupt handler. -/
def startCmd (build : Bool) (workers : Option Nat) (bev : BuildEvent) (sev : ServiceEvent) :
    StartResult :=
  if build then
    match bev with
    | .interrupted msg => interruptHandler [startBuildTimeout] [] msg
    | .returns true => runService [startBuildTimeout] workers sev
    | .returns false =>
      { buildCalls := [startBuildTimeout]
        serverCalls := []
        warnings := []
        interruptNotices := 0
        exitCode := 0 }
  else runService [] workers sev

/-- Case-folded key of a character list: two strings are case variants of
each other exactly when their keys agree. -/
def ciKey (cs : List Char) : List Nat :=
  cs.map (fun c => foldLow c.toNat)

/-- Test fixture: the first device of the specification scenario. -/
def rtr1 : Entity := { id := "rtr1", name := "Router One" }

/-- Test fixture: the second device of the specification scenario. -/
def rtr2 : Entity := { id := "rtr2", name := "Router Two" }

/-- Test fixture: what compile produces for the pattern rtr. -/
def rtrRe : Regex := .cat (.char 114) (.cat (.char 116) (.cat (.char 114) .eps))

/-- Test fixture: a plugin whose id matches patterns its name does not. -/
def pluginX : Plugin := { id := "abc", name := "xyz" }

/-- Test fixture: a configuration tree with the single attribute a. -/
def cfgX : PyObj := .mk [(("a"), .mk [])]

/-- C1: for every start invocation with buildRequested=true, if the
Deadline-Bounded Build Step returns false, the service entry point is
never invoked — no execution path has a failed build and a started
service. -/
theorem build_gate_blocks_service (workers : Option Nat) (sev : ServiceEvent) :
    (startCmd true workers (.returns false) sev).serverCalls = [] := by
  simp [startCmd]

/-- C2: for every start invocation with buildRequested=true where the
build step (invoked with the default 180 second deadline) returns true,
the service entry point is invoked exactly once, receiving the requested
worker count. -/
theorem build_success_starts_service_once (workers : Option Nat) (sev : ServiceEvent) :
    (startCmd true workers (.returns true) sev).serverCalls = [workers] ∧
    (startCmd true workers (.returns true) sev).buildCalls = [180] := by
  cases sev <;> simp [startCmd, runService, interruptHandler, startBuildTimeout]

/-- C3 counterexample: with buildRequested=true and a build step returning
false, the command exits with code 0, not a nonzero code — the claimed
nonzero exit is false at this input. -/
theorem build_failure_exit_nonzero_cex :
    (startCmd true none (.returns false) .returns).exitCode ≠ 1 ∧
    (startCmd true none (.returns false) .returns).exitCode = 0 := by
  constructor <;> decide

/-- C3 amended: for every start invocation with buildRequested=true where
the build step returns false (build failure or timeout), the service entry
point is never invoked, but the command falls through and exits with code
0 — the build failure is not reflected in the exit code. -/
theorem build_failure_never_serves_exits_zero (workers : Option Nat) (sev : ServiceEvent) :
    (startCmd true workers (.returns false) sev).serverCalls = [] ∧
    (startCmd true workers (.returns false) sev).exitCode = 0 := by
  simp [startCmd]

/-- C4 counterexample: a service process that exits normally (no
interrupt) via SystemExit with exit code 3 does not make the start command
terminate with code 3 — the except clause catches SystemExit and raises
typer.Exit(0). -/
theorem service_exit_code_passthrough_cex :
    (startCmd false none (.returns true) (.systemExit 3 ("3"))).exitCode ≠ 3 ∧
    (startCmd false none (.returns true) (.systemExit 3 ("3"))).exitCode = 0 := by
  constructor <;> decide

/-- C4 amended: the start command terminates with exit code 0 on every
modelled path — whether the service entry point returns normally or exits
via SystemExit with any code, the exit code is 0 and the service's own
exit code is never passed through (SystemExit is caught by the same
handler as KeyboardInterrupt). -/
theorem start_always_exits_zero (build : Bool) (workers : Option Nat)
    (bev : BuildEvent) (sev : ServiceEvent) :
    (startCmd build workers bev sev).exitCode = 0 := by
  rcases bev with outcome | msg
  · cases build <;> cases outcome <;> cases sev <;>
      simp [startCmd, runService, interruptHandler]
  · cases build <;> cases sev <;>
      simp [startCmd, runService, interruptHandler]

/-- C5: an interrupt delivered during the BUILDING stage or the SERVING
stage (with or without a preceding build) produces exactly one fixed
stopping notice and exit code 0, for every interrupt message including the
empty one. -/
theorem interrupt_one_notice_exit_zero (workers : Option Nat) (msg : String)
    (sev : ServiceEvent) (bev : BuildEvent) :
    ((startCmd true workers (.interrupted msg) sev).interruptNotices = 1 ∧
      (startCmd true workers (.interrupted msg) sev).exitCode = 0) ∧
    ((startCmd true workers (.returns true) (.interrupted msg)).interruptNotices = 1 ∧
      (startCmd true workers (.returns true) (.interrupted msg)).exitCode = 0) ∧
    ((startCmd false workers bev (.interrupted msg)).interruptNotices = 1 ∧
      (startCmd false workers bev (.interrupted msg)).exitCode = 0) := by
  refine ⟨⟨?_, ?_⟩, ⟨?_, ?_⟩, ⟨?_, ?_⟩⟩ <;>
    simp [startCmd, runService, interruptHandler]

/-- Matching is preserved by extending the input: prefix-anchored
semantics.  A match of the pattern consumes a prefix, so whatever follows
cannot destroy it. -/
theorem matchList_append (r : Regex) (s t : List Char) (h : matchList r s = true) :
    matchList r (s ++ t) = true := by
  induction s generalizing r with
  | nil =>
    cases t with
    | nil => exact h
    | cons c cs =>
      simp only [matchList] at h
      simp only [List.nil_append, matchList, h, Bool.true_or]
  | cons c cs ih =>
    simp only [matchList, Bool.or_eq_true] at h
    simp only [List.cons_append, matchList, Bool.or_eq_true]
    rcases h with h | h
    · exact Or.inl h
    · exact Or.inr (ih _ h)

/-- Range membership under case folding depends only on the folded
codepoint. -/
theorem rangeHit_congr (lo hi n m : Nat) (h : foldLow n = foldLow m) :
    rangeHit lo hi n = rangeHit lo hi m := by
  rw [Bool.eq_iff_iff]
  simp only [rangeHit, Bool.or_eq_true, decide_eq_true_eq]
  simp only [foldLow, foldUp] at h ⊢
  split_ifs at h ⊢ <;> omega

/-- The derivative of a regex depends only on the folded codepoint: the
compiled pattern cannot distinguish case variants of a character. -/
theorem deriv_congr (r : Regex) (n m : Nat) (h : foldLow n = foldLow m) :
    r.deriv n = r.deriv m := by
  induction r with
  | fail => rfl
  | eps => rfl
  | any =>
    have h10 : n = 10 ↔ m = 10 := by
      simp only [foldLow] at h; split_ifs at h <;> omega
    simp only [Regex.deriv]
    by_cases hn : n = 10
    · simp [hn, h10.mp hn]
    · have hm : ¬ m = 10 := fun hm => hn (h10.mpr hm)
      simp [hn, hm]
  | char p => simp only [Regex.deriv, charMatchCI, h]
  | cls neg rs =>
    have : (fun lohi : Nat × Nat => rangeHit lohi.1 lohi.2 n) =
        (fun lohi : Nat × Nat => rangeHit lohi.1 lohi.2 m) :=
      funext fun lohi => rangeHit_congr lohi.1 lohi.2 n m h
    simp only [Regex.deriv, clsMatch, inRangesCI, this]
  | alt r s ihr ihs => simp only [Regex.deriv, ihr, ihs]
  | cat r s ihr ihs => simp only [Regex.deriv, ihr, ihs]
  | star r ihr => simp only [Regex.deriv, ihr]

/-- Case-insensitivity of the matcher: inputs with the same case-folded
key are matched identically by every compiled pattern. -/
theorem matchList_ci (r : Regex) (s t : List Char) (h : ciKey s = ciKey t) :
    matchList r s = matchList r t := by
  induction s generalizing r t with
  | nil =>
    cases t with
    | nil => rfl
    | cons d ds => simp [ciKey] at h
  | cons c cs ih =>
    cases t with
    | nil => simp [ciKey] at h
    | cons d ds =>
      simp only [ciKey, List.map_cons, List.cons.injEq] at h
      simp only [matchList]
      rw [deriv_congr r _ _ h.1, ih _ _ h.2]

/-- The scan loop returns the first matching entity and never looks past
it: the result is independent of the part of the collection after the
first match. -/
theorem searchFirst_first_match (r : Regex) (pre suf : List Entity) (e : Entity)
    (he : entityHit r e = true) (hpre : ∀ d ∈ pre, entityHit r d = false) :
    searchFirst r (pre ++ e :: suf) = some e := by
  induction pre with
  | nil => simp [searchFirst, he]
  | cons d ds ih =>
    have hd := hpre d (List.mem_cons_self d ds)
    simp only [List.cons_append, searchFirst, hd]
    exact ih fun x hx => hpre x (List.mem_cons_of_mem d hx)

/-- A collection with no matching entity makes the scan loop fall
through. -/
theorem searchFirst_none (r : Regex) (es : List Entity)
    (hnone : ∀ d ∈ es, entityHit r d = false) :
    searchFirst r es = none := by
  induction es with
  | nil => rfl
  | cons d ds ih =>
    have hd := hnone d (List.mem_cons_self d ds)
    simp only [searchFirst, hd]
    exact ih fun x hx => hnone x (List.mem_cons_of_mem d hx)

/-- C6: a devices or directives search compiles the pattern
case-insensitively, scans in collection order and exits 0 on the first
entity whose id or name the pattern matches, short-circuiting: entities
after the first match never influence the result.  The trailing conjuncts
record the match semantics: a match survives extending the input (a
start-anchored prefix match under regex rules), it is invariant under
case folding, and it is not a substring search (pattern b fails against
ab although b occurs in it). -/
theorem devices_directives_first_match (s : String) (r : Regex) (pre suf : List Entity)
    (e : Entity) (hc : compile s = .ok r) (he : entityHit r e = true)
    (hpre : ∀ d ∈ pre, entityHit r d = false) :
    (devicesCmd (pre ++ e :: suf) (some s) = .printOne e ∧
      directivesCmd (pre ++ e :: suf) (some s) = .printOne e) ∧
    (∀ r2 : Regex, ∀ u v : List Char, matchList r2 u = true → matchList r2 (u ++ v) = true) ∧
    (∀ r2 : Regex, ∀ u v : List Char, ciKey u = ciKey v → matchList r2 u = matchList r2 v) ∧
    (matchStr (.char 98) ("ab") = false ∧ matchStr (.char 98) ("b") = true) := by
  have hfind := searchFirst_first_match r pre suf e he hpre
  refine ⟨⟨?_, ?_⟩, fun r2 u v h => matchList_append r2 u v h,
    fun r2 u v h => matchList_ci r2 u v h, by decide, by decide⟩
  · simp [devicesCmd, hc, hfind]
  · simp [directivesCmd, hc, hfind]

/-- Witness: on the scenario collection [rtr1, rtr2] the search for rtr
returns the first device and stops. -/
theorem devices_directives_first_match_witness :
    (compile ("rtr") = .ok rtrRe ∧ entityHit rtrRe rtr1 = true) ∧
    devicesCmd [rtr1, rtr2] (some ("rtr")) = .printOne rtr1 :=
  ⟨⟨rfl, by decide⟩,
    (devices_directives_first_match ("rtr") rtrRe [] [rtr2] rtr1 rfl (by decide)
      (by simp)).1.1⟩

/-- C10: a devices or directives search pattern that matches no entity is
not an error: the loop falls through, the command prints the entire
collection and exits 0. -/
theorem devices_directives_no_match_prints_all (s : String) (r : Regex) (es : List Entity)
    (hc : compile s = .ok r) (hnone : ∀ d ∈ es, entityHit r d = false) :
    devicesCmd es (some s) = .printAll es ∧
    (devicesCmd es (some s)).exitCode = 0 ∧
    directivesCmd es (some s) = .printAll es ∧
    (directivesCmd es (some s)).exitCode = 0 := by
  have hfind := searchFirst_none r es hnone
  refine ⟨?_, ?_, ?_, ?_⟩ <;>
    simp [devicesCmd, directivesCmd, hc, hfind, SearchCmdResult.exitCode]

/-- Witness: the pattern xyz matches neither field of either scenario
device, and the command prints the whole collection with exit 0. -/
theorem devices_directives_no_match_prints_all_witness :
    (compile ("xyz") =
        .ok (Regex.cat (.char 120) (.cat (.char 121) (.cat (.char 122) .eps))) ∧
      entityHit (Regex.cat (.char 120) (.cat (.char 121) (.cat (.char 122) .eps))) rtr1 =
        false) ∧
    devicesCmd [rtr1, rtr2] (some ("xyz")) = .printAll [rtr1, rtr2] :=
  ⟨⟨rfl, by decide⟩,
    (devices_directives_no_match_prints_all ("xyz")
      (Regex.cat (.char 120) (.cat (.char 121) (.cat (.char 122) .eps))) [rtr1, rtr2]
      rfl (by decide)).1⟩

/-- C7 counterexample: the plugin with id abc and name xyz has an id that
the pattern a matches, yet the plugins search reports no matches and exits
1 — the source filters on the name field only, so the claimed id-or-name
result set is false at this input. -/
theorem plugins_search_ignores_id_cex :
    matchStr (Regex.cat (.char 97) .eps) (pluginX.id) = true ∧
    compile ("a") = .ok (Regex.cat (.char 97) .eps) ∧
    pluginsCmd [pluginX] [] false false (some ("a")) =
      .noMatches ("No plugins matching a") ∧
    (pluginsCmd [pluginX] [] false false (some ("a"))).exitCode = 1 := by
  refine ⟨by decide, rfl, rfl, rfl⟩

/-- C7 amended: the plugins search result set contains exactly those
plugins whose NAME matches the pattern case-insensitively at the start of
the string (the id field is not consulted), preserving collection order;
when zero plugins match, the command reports the no-match error and exits
with code 1. -/
theorem plugins_search_name_filter (inp out : List Plugin) (si so : Bool) (s : String)
    (r : Regex) (hc : compile s = .ok r) :
    (∀ p : Plugin,
      p ∈ (allPluginsOf inp out si so).filter (fun q => matchStr r q.name) ↔
        p ∈ allPluginsOf inp out si so ∧ matchStr r p.name = true) ∧
    ((allPluginsOf inp out si so).filter (fun q => matchStr r q.name)).Sublist
      (allPluginsOf inp out si so) ∧
    pluginsCmd inp out si so (some s) =
      (if ((allPluginsOf inp out si so).filter (fun q => matchStr r q.name)).isEmpty
        then .noMatches ("No plugins matching " ++ s)
        else .printMatches
          ((allPluginsOf inp out si so).filter (fun q => matchStr r q.name))) ∧
    (((allPluginsOf inp out si so).filter (fun q => matchStr r q.name)).isEmpty = true →
      (pluginsCmd inp out si so (some s)).exitCode = 1) := by
  refine ⟨fun p => by simp [List.mem_filter], List.filter_sublist _, ?_, ?_⟩
  · simp only [pluginsCmd, hc]
  · intro hempty
    simp [pluginsCmd, hc, hempty, PluginsResult.exitCode]

/-- Witness: with the single plugin named xyz, the search for a matches
nothing, yields the no-match outcome and exit code 1. -/
theorem plugins_search_name_filter_witness :
    compile ("a") = .ok (Regex.cat (.char 97) .eps) ∧
    pluginsCmd [pluginX] [] false false (some ("a")) =
      (if ([pluginX].filter
            (fun q => matchStr (Regex.cat (.char 97) .eps) q.name)).isEmpty
        then .noMatches ("No plugins matching " ++ "a")
        else .printMatches ([pluginX].filter
          (fun q => matchStr (Regex.cat (.char 97) .eps) q.name))) :=
  ⟨rfl,
    (plugins_search_name_filter [pluginX] [] false false ("a")
      (Regex.cat (.char 97) .eps) rfl).2.2.1⟩

/-- C8 counterexample: the malformed pattern [ raises in re.compile, and
neither _devices nor _plugins has a handler around it — the failure
escapes the command as an uncaught exception instead of being reported as
a user error, so the no-crash half of the claim is false at this input. -/
theorem invalid_pattern_uncaught_cex :
    devicesCmd [rtr1] (some ("[")) = .uncaught ("unterminated character set") ∧
    pluginsCmd [] [] false false (some ("[")) =
      .uncaught ("unterminated character set") := by
  exact ⟨rfl, rfl⟩

/-- C8 amended: a search string that fails to compile propagates out of
the devices, directives and plugins handlers as an uncaught re.error; the
process then terminates nonzero (typer prints the traceback and exits 1),
but the malformed-pattern condition is not translated into a handled user
error by the command itself. -/
theorem invalid_pattern_propagates (s e : String) (devices : List Entity)
    (inp out : List Plugin) (si so : Bool) (hc : compile s = .error e) :
    devicesCmd devices (some s) = .uncaught e ∧
    directivesCmd devices (some s) = .uncaught e ∧
    pluginsCmd inp out si so (some s) = .uncaught e ∧
    (devicesCmd devices (some s)).exitCode = 1 ∧
    (directivesCmd devices (some s)).exitCode = 1 ∧
    (pluginsCmd inp out si so (some s)).exitCode = 1 := by
  refine ⟨?_, ?_, ?_, ?_, ?_, ?_⟩ <;>
    simp [devicesCmd, directivesCmd, pluginsCmd, hc, SearchCmdResult.exitCode,
      PluginsResult.exitCode]

/-- Witness: the unterminated character set [ escapes the devices command
uncaught. -/
theorem invalid_pattern_propagates_witness :
    compile ("[") = .error ("unterminated character set") ∧
    devicesCmd [rtr1] (some ("[")) = .uncaught ("unterminated character set") :=
  ⟨rfl,
    (invalid_pattern_propagates ("[") ("unterminated character set") [rtr1] [] []
      false false rfl).1⟩

/-- A pair found in a valid attribute table has a nonempty name and a
valid value. -/
theorem validAttrs_mem (attrs : List (String × PyObj)) (hv : validAttrs attrs = true)
    (n : String) (v : PyObj) (hmem : (n, v) ∈ attrs) :
    n.isEmpty = false ∧ validNamesB v = true := by
  induction attrs with
  | nil => cases hmem
  | cons a rest ih =>
    obtain ⟨an, av⟩ := a
    simp only [validAttrs, Bool.and_eq_true, Bool.not_eq_true'] at hv
    rcases List.mem_cons.mp hmem with heq | hrest
    · rw [Prod.mk.injEq] at heq
      obtain ⟨h1, h2⟩ := heq
      subst h1; subst h2
      exact ⟨hv.1.1, hv.1.2⟩
    · exact ih hv.2 hrest

/-- getattr preserves the ConfigRoot validity invariant. -/
theorem getattrE_valid (obj : PyObj) (name : String) (v : PyObj)
    (hv : validNamesB obj = true) (h : getattrE obj name = .ok v) :
    validNamesB v = true := by
  unfold getattrE at h
  cases hfind : obj.attrs.find? (fun p => p.1 == name) with
  | none => rw [hfind] at h; cases h
  | some p =>
    rw [hfind] at h
    injection h with h2
    have hmem := List.mem_of_find?_eq_some hfind
    have hvattrs : validAttrs obj.attrs = true := by
      cases obj with
      | mk a => simpa [validNamesB, PyObj.attrs] using hv
    have := (validAttrs_mem obj.attrs hvattrs p.1 p.2 (Prod.mk.eta ▸ hmem)).2
    rwa [h2] at this

/-- Under the validity invariant, no object has an attribute with the
empty name: getattr on the empty segment always fails. -/
theorem getattrE_empty_name (obj : PyObj) (hv : validNamesB obj = true) :
    getattrE obj ("") = .error ("") := by
  unfold getattrE
  cases hfind : obj.attrs.find? (fun p => p.1 == ("")) with
  | none => rfl
  | some p =>
    exfalso
    have hpred := List.find?_some hfind
    have heq : p.1 = ("") := by simpa using hpred
    have hmem := List.mem_of_find?_eq_some hfind
    have hvattrs : validAttrs obj.attrs = true := by
      cases obj with
      | mk a => simpa [validNamesB, PyObj.attrs] using hv
    have hne := (validAttrs_mem obj.attrs hvattrs p.1 p.2 (Prod.mk.eta ▸ hmem)).1
    rw [heq] at hne
    have htrue : String.isEmpty ("") = true := by decide
    rw [htrue] at hne
    exact Bool.noConfusion hne

/-- A segment list containing an empty segment never resolves on a valid
object. -/
theorem resolveSegs_empty_seg (segs : List String) (obj : PyObj)
    (hv : validNamesB obj = true) (hm : ("") ∈ segs) :
    ∃ e, resolveSegs segs obj = Except.error e := by
  induction segs generalizing obj with
  | nil => cases hm
  | cons seg rest ih =>
    cases hget : getattrE obj seg with
    | error e => exact ⟨e, by simp [resolveSegs, hget]⟩
    | ok v =>
      rcases List.mem_cons.mp hm with hseg | hrest
      · rw [← hseg, getattrE_empty_name obj hv] at hget
        cases hget
      · have hvv := getattrE_valid obj seg v hv hget
        obtain ⟨e, he⟩ := ih v hvv hrest
        exact ⟨e, by simp [resolveSegs, hget, he]⟩

/-- C9: with a supplied dotted path, the params command reports the
path-not-found error (whose message carries the original full path
verbatim between the fixed framing texts) and exits 1 exactly when some
segment fails to resolve; under the ConfigRoot identifier invariant a
path with an empty segment always fails, and an empty path, a leading
dot, a trailing dot and a double dot all produce an empty segment; and
every outcome is one of the two reported ones, never an unrelated
fault. -/
theorem params_path_not_found (params : PyObj) (p : String)
    (hv : validNamesB params = true) :
    (resolveFails p params = true ↔
      paramsCmd params p = .pathError ("params." ++ p ++ " does not exist")) ∧
    ((paramsCmd params p).exitCode = 1 ↔ resolveFails p params = true) ∧
    (("") ∈ pathSegs p → resolveFails p params = true) ∧
    (pathSegs ("") = [("")] ∧ ("") ∈ pathSegs ("a..b") ∧ ("") ∈ pathSegs (".a") ∧
      ("") ∈ pathSegs ("a.")) ∧
    ((paramsCmd params p).exitCode = 0 ∨ (paramsCmd params p).exitCode = 1) := by
  refine ⟨?_, ?_, ?_, by decide, ?_⟩ <;>
    first
    | (intro hm
       obtain ⟨e, he⟩ := resolveSegs_empty_seg (pathSegs p) params hv hm
       simp [resolveFails, attrgetter, he])
    | (cases h : attrgetter p params <;>
        simp [resolveFails, paramsCmd, h, ParamsResult.exitCode])

/-- Witness: the specification scenario path messages.no_input against a
tree lacking a messages attribute fails with exit code 1. -/
theorem params_path_not_found_witness :
    validNamesB cfgX = true ∧
    ((paramsCmd cfgX ("messages.no_input")).exitCode = 1 ↔
      resolveFails ("messages.no_input") cfgX = true) :=
  ⟨by decide, (params_path_not_found cfgX ("messages.no_input") (by decide)).2.1⟩
